import Mathlib

/-!
Verification of `compare-aspaths.py`, a one-shot CLI that fetches BGP
AS-path state for a prefix at two timepoints from the RIPEstat API and
prints the source ids whose AS-path changed.

The Python program is shallowly embedded below.  Conventions:
* Python strings are modelled as `List Char` (with `String` wrappers at
  the CLI boundary); Python ints as `Int`/`Nat`.
* Naive local datetimes are modelled as `Int` minutes since the local
  epoch 1970-01-01T00:00 (minute granularity is the finest the program
  ever formats; all comparisons in the program are order comparisons,
  which the minute model preserves).
* Fallible Python code (functions that can raise) returns `Option`/`Except`;
  `none`/`.error` marks the raised exception.
* The HTTP transport is a parameter `fetch : List Char → Response _`
  mapping the request URL to the (already JSON-decoded) response.
-/

namespace CompareAspaths

/-! ## Python string helpers (str.split on a single-character separator) -/

/-- Python `s.split(sep)` for a one-character separator. -/
def splitOnChar (sep : Char) : List Char → List (List Char)
  | [] => [[]]
  | c :: rest =>
    let r := splitOnChar sep rest
    if c = sep then [] :: r
    else
      match r with
      | h :: t => (c :: h) :: t
      | [] => [[c]]

/-- Value of a decimal digit string (callers check `all isDigit` first). -/
def digitsToNat (l : List Char) : Nat :=
  l.foldl (fun a c => a * 10 + (c.toNat - 48)) 0

/-- Decimal rendering of a positive `Nat`, most significant digit first. -/
def natDigits : Nat → Nat → List Char
  | 0, _ => []
  | f + 1, n => if n = 0 then [] else natDigits f (n / 10) ++ [Char.ofNat (48 + n % 10)]

/-- Python `str(n)` for a natural number. -/
def str_of_nat (n : Nat) : List Char :=
  if n = 0 then ['0'] else natDigits n n

/-- Python `str(n)` for an integer. -/
def str_of_int : Int → List Char
  | .ofNat n => str_of_nat n
  | .negSucc n => '-' :: str_of_nat (n + 1)

/-! ## Constants (lines 17-27 of the source) -/

/-- RIPE RIS updates dumps every 8th hour. -/
def RIPE_RIS_INTERVAL : Nat := 8

/-- Default number of dumps back in time to compare with. -/
def RIPE_RIS_DEFAULT_N_DUMPS_BACK : Nat := 3

def HOURS_PER_DAY : Nat := 24

/-- Minutes per hour: granularity of the time model. -/
def MIN_PER_HOUR : Nat := 60

/-! ## Timestamp resolution (`ris_get_dump_times`, `ris_get_last_dump_datetime`) -/

/-- `rrule(HOURLY, interval=8, dtstart=date.today(), count=24/8*n)`:
the list of `(24/8)*n` datetimes starting at today's local midnight,
spaced 8 hours apart, in chronological order.  `midnight` is the minute
timestamp of today's local midnight; `n` is the `-n` argument. -/
def ris_get_dump_times (midnight : Int) (n : Nat) : List Int :=
  (List.range (HOURS_PER_DAY / RIPE_RIS_INTERVAL * n)).map
    (fun i => midnight + (RIPE_RIS_INTERVAL * MIN_PER_HOUR * i : Nat))

/-- Python `bisect.bisect` (= `bisect_right`) on a chronologically sorted
list: the index of the first element strictly greater than `x`, i.e. the
length of the longest prefix of elements `≤ x`. -/
def bisect : List Int → Int → Nat
  | [], _ => 0
  | t :: ts, x => if t ≤ x then bisect ts x + 1 else 0

/-- `ris_get_last_dump_datetime`: `times[bisect(times, now - 8*n hours)]`.
Returns `none` when the index is out of range (Python `IndexError`). -/
def ris_get_last_dump_datetime (midnight nowT : Int) (n : Nat) : Option Int :=
  let times := ris_get_dump_times midnight n
  let dt := nowT - (RIPE_RIS_INTERVAL * MIN_PER_HOUR * n : Nat)
  times.get? (bisect times dt)

/-! ## Timestamp formatting (`ris_format_timestamp`) -/

/-- Gregorian civil date from a day count relative to 1970-01-01
(standard civil-from-days algorithm): `(year, month, day)`. -/
def civil_from_days (z0 : Int) : Int × Nat × Nat :=
  let z := z0 + 719468
  let era := Int.fdiv z 146097
  let doe := (Int.fmod z 146097).toNat
  let yoe := (doe - doe / 1460 + doe / 36524 - doe / 146096) / 365
  let doy := doe - (365 * yoe + yoe / 4 - yoe / 100)
  let mp := (5 * doy + 2) / 153
  let d := doy - (153 * mp + 2) / 5 + 1
  let m := if mp < 10 then mp + 3 else mp - 9
  ((yoe : Int) + era * 400 + (if m ≤ 2 then 1 else 0), m, d)

/-- Two-digit zero padding, as in `strftime` numeric fields. -/
def zfill2 (n : Nat) : List Char :=
  if n < 10 then '0' :: str_of_nat n else str_of_nat n

/-- `ris_format_timestamp`: `dt.strftime("%Y-%m-%dT%H:%M")` over the
minute-count datetime model. -/
def ris_format_timestamp (dt : Int) : List Char :=
  let days := Int.fdiv dt 1440
  let minOfDay := (Int.fmod dt 1440).toNat
  let c := civil_from_days days
  str_of_int c.1 ++ '-' :: zfill2 c.2.1 ++ '-' :: zfill2 c.2.2 ++
    'T' :: zfill2 (minOfDay / 60) ++ ':' :: zfill2 (minOfDay % 60)

/-! ## BGP state data model

A decoded `bgp-state` JSON document, as consumed by the program:
`resp['data']['bgp_state']` is a list of records each carrying a
`source_id` (string) and a `path` (list of AS numbers). -/

structure BGPState where
  source_id : List Char
  path : List Int
deriving DecidableEq

/-- The JSON body of a 200 response; the single field models the
`['data']['bgp_state']` access path used by the program. -/
structure BGPResponse where
  bgp_state : List BGPState
deriving DecidableEq

/-! ## HTTP client (`class RIPEstat(APIClient)`) -/

/-- An HTTP response as the program observes it: a status code and the
JSON-decoded body (the program only calls `res.json()` on 200 bodies,
which the spec requires to be JSON). -/
structure Response (α : Type) where
  status_code : Nat
  body : α

def VALID_RESP_CODE : List Nat := [200]

def RIPE_STAT_BASE_URL : List Char := "https://stat.ripe.net/data/".toList

/-- `self.sourceapp = os.path.basename(__file__)`. -/
def sourceapp : List Char := "compare-aspaths.py".toList

/-- `RIPEstat.__querystring(method, params)`. -/
def ripestat_querystring (method : List Char) (params : List (List Char × List Char)) :
    List Char :=
  let params_str := "sourceapp=".toList ++ sourceapp
  if method ≠ "get".toList then params_str
  else params.foldl (fun acc kv => acc ++ '&' :: kv.1 ++ '=' :: kv.2) params_str

/-- `RIPEstat.__url(datacall, qs)`. -/
def ripestat_url (baseurl datacall qs : List Char) : List Char :=
  baseurl ++ datacall ++ "/data.json?".toList ++ qs

/-- `RIPEstat.__response(res)`: the parsed JSON on a recognized status
code, `None` otherwise. -/
def ripestat_response {α : Type} (res : Response α) : Option α :=
  if VALID_RESP_CODE.contains res.status_code then some res.body else none

/-- `RIPEstat.get(datacall, params)`: build the URL, perform the GET
(`fetch`), and filter the response through `__response`. -/
def RIPEstat_get {α : Type} (fetch : List Char → Response α) (baseurl : List Char)
    (datacall : List Char) (params : List (List Char × List Char)) : Option α :=
  ripestat_response (fetch (ripestat_url baseurl datacall
    (ripestat_querystring ("get".toList) params)))

/-- `ris_get_bgp_state(resource, timestamp)`: a `bgp-state` data call
against `RIPE_STAT_BASE_URL` (params in dict insertion order). -/
def ris_get_bgp_state (fetch : List Char → Response BGPResponse)
    (resource timestamp : List Char) : Option BGPResponse :=
  RIPEstat_get fetch RIPE_STAT_BASE_URL "bgp-state".toList
    [("resource".toList, resource), ("timestamp".toList, timestamp)]

/-! ## `ipaddress` stdlib embedding (the subset `validate_target` uses)

Faithful to cpython 3.11 `Lib/ipaddress.py`: `IPv4Network(s)` and
`IPv6Network(s)` with default `strict=True`.  `none` models a raised
`ValueError`; `some (addr, prefixlen)` the constructed network. -/

/-- `_parse_octet`: decimal, 1-3 chars, no leading zeros, ≤ 255. -/
def parse_octet (s : List Char) : Option Nat :=
  if s.isEmpty then none
  else if ¬ s.all Char.isDigit then none
  else if s.length > 3 then none
  else if s ≠ ['0'] ∧ s.headD ' ' = '0' then none
  else if digitsToNat s > 255 then none
  else some (digitsToNat s)

/-- `IPv4Address._ip_int_from_string`: four dot-separated octets. -/
def ipv4_from_string (s : List Char) : Option Nat :=
  let octets := splitOnChar '.' s
  if octets.length ≠ 4 then none
  else
    match octets.mapM parse_octet with
    | some l => some (l.foldl (fun acc o => acc * 256 + o) 0)
    | none => none

/-- `_prefix_from_prefix_string`: a decimal digit string ≤ the maximum
prefix length (leading zeros permitted here). -/
def prefix_from_prefix_string (s : List Char) (max_prefixlen : Nat) : Option Nat :=
  if s.isEmpty then none
  else if ¬ s.all Char.isDigit then none
  else if digitsToNat s ≤ max_prefixlen then some (digitsToNat s) else none

/-- Trailing zero bits of `n` (fuel-bounded; callers cap with `min`). -/
def count_righthand_zero_bits_aux : Nat → Nat → Nat
  | 0, _ => 0
  | f + 1, n => if n % 2 = 0 then count_righthand_zero_bits_aux f (n / 2) + 1 else 0

/-- `_count_righthand_zero_bits(number, bits)`. -/
def count_righthand_zero_bits (n bits : Nat) : Nat :=
  if n = 0 then bits else min bits (count_righthand_zero_bits_aux bits n)

/-- `_prefix_from_ip_int`: a netmask integer (ones followed by zeros)
back to its prefix length. -/
def prefix_from_ip_int (ip_int max_prefixlen : Nat) : Option Nat :=
  let tz := count_righthand_zero_bits ip_int max_prefixlen
  let prefixlen := max_prefixlen - tz
  if ip_int >>> tz = 2 ^ prefixlen - 1 then some prefixlen else none

/-- `IPv4Network._prefix_from_ip_string`: dotted-quad netmask, else
hostmask (the bitwise complement). -/
def prefix_from_ip_string_v4 (s : List Char) : Option Nat :=
  match ipv4_from_string s with
  | none => none
  | some ip =>
    match prefix_from_ip_int ip 32 with
    | some p => some p
    | none => prefix_from_ip_int (ip ^^^ (2 ^ 32 - 1)) 32

/-- `IPv4Network._make_netmask` on a string argument. -/
def ipv4_make_netmask (s : List Char) : Option Nat :=
  match prefix_from_prefix_string s 32 with
  | some p => some p
  | none => prefix_from_ip_string_v4 s

/-- The address and prefix length of `IPv4Network(s)` before the
`strict` host-bits check. -/
def ipv4_addr_and_prefixlen (s : List Char) : Option (Nat × Nat) :=
  let addr := splitOnChar '/' s
  if addr.length > 2 then none
  else
    match ipv4_from_string (addr.headD []) with
    | none => none
    | some ip =>
      match (if addr.length = 2 then ipv4_make_netmask (addr.getD 1 []) else some 32) with
      | none => none
      | some p => some (ip, p)

/-- The netmask integer for an IPv4 prefix length. -/
def ipv4_netmask_int (p : Nat) : Nat := 2 ^ 32 - 2 ^ (32 - p)

/-- `IPv4Network(s)` with `strict=True` (the default). -/
def IPv4Network (s : List Char) : Option (Nat × Nat) :=
  match ipv4_addr_and_prefixlen s with
  | none => none
  | some ap => if ap.1 &&& ipv4_netmask_int ap.2 ≠ ap.1 then none else some ap

/-- Membership in `_HEX_DIGITS`. -/
def isHexChar (c : Char) : Bool :=
  c.isDigit || ('a' ≤ c && c ≤ 'f') || ('A' ≤ c && c ≤ 'F')

def hexDigitVal (c : Char) : Nat :=
  if c.isDigit then c.toNat - 48
  else if 'a' ≤ c then c.toNat - 87
  else c.toNat - 55

/-- `IPv6Address._parse_hextet`: 1-4 hex digits. -/
def parse_hextet (s : List Char) : Option Nat :=
  if ¬ s.all isHexChar then none
  else if s.length > 4 then none
  else if s.isEmpty then none
  else some (s.foldl (fun a c => a * 16 + hexDigitVal c) 0)

def hexDigitChar (n : Nat) : Char :=
  if n < 10 then Char.ofNat (48 + n) else Char.ofNat (87 + n)

def hexDigitsAux : Nat → Nat → List Char
  | 0, _ => []
  | f + 1, n => if n = 0 then [] else hexDigitsAux f (n / 16) ++ [hexDigitChar (n % 16)]

/-- Python `'%x' % n` (lowercase hex, no padding). -/
def hexStr (n : Nat) : List Char :=
  if n = 0 then ['0'] else hexDigitsAux n n

/-- Indices of empty parts strictly between the two endpoints (the
scan locating `::`). -/
def interiorEmpties (parts : List (List Char)) : List Nat :=
  (List.range parts.length).filter
    (fun i => decide (0 < i) && decide (i + 1 < parts.length) && (parts.getD i []).isEmpty)

/-- `ip_int <<= 16; ip_int |= parse_hextet(part)` over a run of parts. -/
def foldHextets (l : List (List Char)) : Option Nat :=
  l.foldlM (fun acc p => (parse_hextet p).map (fun h => acc * 65536 + h)) 0

/-- Core of `IPv6Address._ip_int_from_string` after the IPv4-suffix
rewrite: hextet parts (possibly with one `::` gap) to the 128-bit int. -/
def ipv6_from_parts (parts : List (List Char)) : Option Nat :=
  if parts.length > 9 then none
  else
    match interiorEmpties parts with
    | [] =>
      if parts.length ≠ 8 then none
      else if (parts.headD []).isEmpty then none
      else if (parts.getLastD []).isEmpty then none
      else foldHextets parts
    | [i] =>
      match (if (parts.headD []).isEmpty then (if i - 1 = 0 then some 0 else none) else some i),
        (if (parts.getLastD []).isEmpty then
          (if parts.length - i - 1 - 1 = 0 then some 0 else none)
        else some (parts.length - i - 1)) with
      | some hi, some lo =>
        if hi + lo > 7 then none
        else
          let skipped := 8 - (hi + lo)
          match foldHextets (parts.take hi), foldHextets (parts.drop (parts.length - lo)) with
          | some a, some b => some (a * 2 ^ (16 * (skipped + lo)) + b)
          | _, _ => none
      | _, _ => none
    | _ => none

/-- `IPv6Address._ip_int_from_string` (scope id already stripped). -/
def ipv6_from_string (s : List Char) : Option Nat :=
  let parts := splitOnChar ':' s
  if parts.length < 3 then none
  else if (parts.getLastD []).contains '.' then
    match ipv4_from_string (parts.getLastD []) with
    | none => none
    | some v4 =>
      ipv6_from_parts (parts.dropLast ++ [hexStr (v4 >>> 16 &&& 65535), hexStr (v4 &&& 65535)])
  else ipv6_from_parts parts

/-- `IPv6Address.__init__`: split an optional `%scope_id` (at most one
`%`, scope nonempty), then parse the address. -/
def ipv6_address_from_string (s : List Char) : Option Nat :=
  match splitOnChar '%' s with
  | [addr] => ipv6_from_string addr
  | [addr, scope] => if scope.isEmpty then none else ipv6_from_string addr
  | _ => none

/-- The address and prefix length of `IPv6Network(s)` before the
`strict` host-bits check. -/
def ipv6_addr_and_prefixlen (s : List Char) : Option (Nat × Nat) :=
  let addr := splitOnChar '/' s
  if addr.length > 2 then none
  else
    match ipv6_address_from_string (addr.headD []) with
    | none => none
    | some ip =>
      match (if addr.length = 2 then prefix_from_prefix_string (addr.getD 1 []) 128
        else some 128) with
      | none => none
      | some p => some (ip, p)

/-- The netmask integer for an IPv6 prefix length. -/
def ipv6_netmask_int (p : Nat) : Nat := 2 ^ 128 - 2 ^ (128 - p)

/-- `IPv6Network(s)` with `strict=True` (the default). -/
def IPv6Network (s : List Char) : Option (Nat × Nat) :=
  match ipv6_addr_and_prefixlen s with
  | none => none
  | some ap => if ap.1 &&& ipv6_netmask_int ap.2 ≠ ap.1 then none else some ap

/-! ## AS-path comparison (`lists_equal`, `ris_compare_aspaths`) -/

/-- `lists_equal(a, b)`: `False` when the lengths differ, otherwise
`numpy.all(numpy.asarray(a) == numpy.asarray(b))` — elementwise
equality over the positions. -/
def lists_equal (a b : List Int) : Bool :=
  if a.length ≠ b.length then false
  else (a.zip b).all (fun p => p.1 == p.2)

/-- Python dict assignment `d[k] = v` on an insertion-ordered
association list with unique keys: an existing key keeps its position
and gets the new value, a new key is appended at the end. -/
def dict_set : List (List Char × List Int) → List Char → List Int →
    List (List Char × List Int)
  | [], k, v => [(k, v)]
  | p :: rest, k, v => if p.1 == k then (k, v) :: rest else p :: dict_set rest k v

/-- Python `d[k]` / `k in d`: first (unique) binding of `k`. -/
def dict_get (d : List (List Char × List Int)) (k : List Char) : Option (List Int) :=
  (d.find? (fun p => p.1 == k)).map (fun p => p.2)

/-- The `then_paths` / `now_paths` building loops: insert
`source_id -> path` for each record in order. -/
def build_paths (l : List BGPState) : List (List Char × List Int) :=
  l.foldl (fun d s => dict_set d s.source_id s.path) []

/-- Python `"{: >35}".format(s)`: right-justify with spaces to 35. -/
def rjust (s : List Char) (w : Nat) : List Char :=
  List.replicate (w - s.length) ' ' ++ s

/-- Python `" ".join(map(str, path))`. -/
def join_path (path : List Int) : List Char :=
  List.intercalate [' '] (path.map str_of_int)

/-- One printed diff line: `"{: >35} --> {: >35}".format(old, new)`. -/
def format_line (old new : List Int) : List Char :=
  rjust (join_path old) 35 ++ ' ' :: '-' :: '-' :: '>' :: ' ' :: rjust (join_path new) 35

/-- A Python exception the program can raise. -/
inductive PyErr
  | typeError
  | indexError
deriving DecidableEq

deriving instance DecidableEq for Except

/-- `ris_compare_aspaths(then, now)`: `none` inputs model the `None`
returned by `ris_get_bgp_state` on a non-200 response; subscripting
`None` raises `TypeError`.  On success, returns the printed lines in
order: for each `source_id` of the `then` dict that is also in the
`now` dict, a line when the paths are not `lists_equal`. -/
def ris_compare_aspaths (thenR nowR : Option BGPResponse) :
    Except PyErr (List (List Char)) :=
  match thenR with
  | none => .error .typeError
  | some t =>
    match nowR with
    | none => .error .typeError
    | some nw =>
      let then_paths := build_paths t.bgp_state
      let now_paths := build_paths nw.bgp_state
      .ok (then_paths.filterMap (fun p =>
        match dict_get now_paths p.1 with
        | none => none
        | some np => if lists_equal p.2 np then none else some (format_line p.2 np)))

/-! ## `validate_target` (lines 122-135 of the source) -/

def validate_targetL (target : List Char) : Bool :=
  if ¬ target.contains '/' then false
  else if target.contains ':' then (IPv6Network target).isSome
  else (IPv4Network target).isSome

def validate_target (target : String) : Bool :=
  validate_targetL target.toList

/-! ## The `__main__` block (lines 139-182 of the source) -/

/-- Observable outcome of a completed run (one that reached a
`sys.exit`): the exit code, whether the help text went to standard
error, how many HTTP requests were issued, and the lines printed to
standard output. -/
structure RunResult where
  exitCode : Nat
  helpToStderr : Bool
  networkCalls : Nat
  output : List (List Char)
deriving DecidableEq

/-- The `__main__` block after argument parsing: validate the target
(printing help to stderr and exiting 1 on failure, before any network
activity), resolve the two timestamps, fetch both snapshots, compare,
and exit 0.  `.error` models an uncaught exception; `midnight`/`nowT`
are `date.today()` / `datetime.now()`, and `fetch` is the HTTP
transport keyed by request URL. -/
def main_run (n : Nat) (target : String) (midnight nowT : Int)
    (fetch : List Char → Response BGPResponse) : Except PyErr RunResult :=
  if ¬ validate_target target then .ok ⟨1, true, 0, []⟩
  else
    match ris_get_last_dump_datetime midnight nowT n with
    | none => .error .indexError
    | some thenDt =>
      let thenRes := ris_get_bgp_state fetch target.toList (ris_format_timestamp thenDt)
      let nowRes := ris_get_bgp_state fetch target.toList (ris_format_timestamp nowT)
      match ris_compare_aspaths thenRes nowRes with
      | .error e => .error e
      | .ok out => .ok ⟨0, false, 2, out⟩

/-! ## Lemmas about `bisect` -/

theorem bisect_le_length (l : List Int) (x : Int) : bisect l x ≤ l.length := by
  induction l with
  | nil => simp [bisect]
  | cons t ts ih =>
    simp only [bisect, List.length_cons]
    split
    · omega
    · omega

theorem bisect_eq_length_iff (l : List Int) (x : Int) :
    bisect l x = l.length ↔ ∀ t ∈ l, t ≤ x := by
  induction l with
  | nil => simp [bisect]
  | cons t ts ih =>
    simp only [bisect, List.length_cons, List.mem_cons]
    split
    · constructor
      · intro h u hu
        rcases hu with rfl | hu
        · assumption
        · exact (ih.mp (by omega)) u hu
      · intro h
        have := ih.mpr (fun u hu => h u (Or.inr hu))
        omega
    · constructor
      · intro h
        have := bisect_le_length ts x
        omega
      · intro h
        exact absurd (h t (Or.inl rfl)) (by assumption)

theorem bisect_get_gt (l : List Int) (x : Int) (h : bisect l x < l.length) :
    ∃ t, l.get? (bisect l x) = some t ∧ x < t := by
  induction l with
  | nil => simp [bisect] at h
  | cons a ts ih =>
    by_cases ha : a ≤ x
    · have hb : bisect (a :: ts) x = bisect ts x + 1 := by simp [bisect, ha]
      rw [hb] at h ⊢
      simp only [List.length_cons] at h
      exact ih (by omega)
    · have hb : bisect (a :: ts) x = 0 := by simp [bisect, ha]
      rw [hb]
      exact ⟨a, rfl, by omega⟩

theorem bisect_get_min (l : List Int) (x : Int) (hs : l.Pairwise (· ≤ ·))
    (t : Int) (ht : l.get? (bisect l x) = some t) :
    ∀ u ∈ l, x < u → t ≤ u := by
  induction l with
  | nil => simp [bisect] at ht
  | cons a ts ih =>
    rcases List.pairwise_cons.mp hs with ⟨hmem, hts⟩
    by_cases ha : a ≤ x
    · have hb : bisect (a :: ts) x = bisect ts x + 1 := by simp [bisect, ha]
      rw [hb] at ht
      simp only [List.get?_cons_succ] at ht
      intro u hu hxu
      rcases List.mem_cons.mp hu with rfl | hu
      · omega
      · exact ih hts ht u hu hxu
    · have hb : bisect (a :: ts) x = 0 := by simp [bisect, ha]
      rw [hb] at ht
      simp only [List.get?_cons_zero, Option.some.injEq] at ht
      subst ht
      intro u hu _
      rcases List.mem_cons.mp hu with rfl | hu
      · omega
      · exact hmem u hu

/-! ## Lemmas about the dump-time candidate list -/

/-- Closed form of the candidate list. -/
theorem dump_times_eq (midnight : Int) (n : Nat) :
    ris_get_dump_times midnight n =
      (List.range (3 * n)).map (fun i : Nat => midnight + 480 * (i : Int)) := by
  have h3 : HOURS_PER_DAY / RIPE_RIS_INTERVAL = 3 := rfl
  rw [ris_get_dump_times, h3]
  refine List.map_congr_left ?_
  intro i _
  have h480 : (RIPE_RIS_INTERVAL * MIN_PER_HOUR * i : Nat) = 480 * i := rfl
  rw [h480]
  push_cast
  ring

theorem length_ris_get_dump_times (midnight : Int) (n : Nat) :
    (ris_get_dump_times midnight n).length = 3 * n := by
  rw [dump_times_eq]
  simp

theorem get?_ris_get_dump_times (midnight : Int) (n i : Nat) (h : i < 3 * n) :
    (ris_get_dump_times midnight n).get? i = some (midnight + 480 * i) := by
  rw [dump_times_eq, List.get?_map, List.get?_range h]
  rfl

theorem mem_ris_get_dump_times (midnight : Int) (n : Nat) (t : Int) :
    t ∈ ris_get_dump_times midnight n ↔ ∃ i : Nat, i < 3 * n ∧ t = midnight + 480 * i := by
  rw [dump_times_eq]
  simp only [List.mem_map, List.mem_range]
  constructor
  · rintro ⟨i, hi, rfl⟩
    exact ⟨i, hi, rfl⟩
  · rintro ⟨i, hi, rfl⟩
    exact ⟨i, hi, rfl⟩

theorem pairwise_lt_ris_get_dump_times (midnight : Int) (n : Nat) :
    (ris_get_dump_times midnight n).Pairwise (· < ·) := by
  rw [dump_times_eq]
  refine List.Pairwise.map _ ?_ (List.pairwise_lt_range _)
  intro a b hab
  have hab' : (a : Int) < (b : Int) := by exact_mod_cast hab
  omega

theorem pairwise_le_ris_get_dump_times (midnight : Int) (n : Nat) :
    (ris_get_dump_times midnight n).Pairwise (· ≤ ·) := by
  exact (pairwise_lt_ris_get_dump_times midnight n).imp (fun h => le_of_lt h)

/-- The central fact behind C2, C3 and C10: for a positive lookback
count and a current time inside today, the lookup always succeeds and
returns the earliest candidate strictly after `now - n*8 hours`. -/
theorem last_dump_spec (midnight nowT : Int) (n : Nat) (hn : 0 < n)
    (hlo : midnight ≤ nowT) (hhi : nowT < midnight + 1440) :
    ∃ t, ris_get_last_dump_datetime midnight nowT n = some t ∧
      t ∈ ris_get_dump_times midnight n ∧
      nowT - 480 * n < t ∧
      ∀ u ∈ ris_get_dump_times midnight n, nowT - 480 * n < u → t ≤ u := by
  set times := ris_get_dump_times midnight n with htimes
  set dt : Int := nowT - 480 * n with hdt
  have hdtv : nowT - (RIPE_RIS_INTERVAL * MIN_PER_HOUR * n : Nat) = dt := by
    have h480 : (RIPE_RIS_INTERVAL * MIN_PER_HOUR * n : Nat) = 480 * n := rfl
    rw [h480, hdt]
    push_cast
    ring
  have hlast_mem : (midnight + 480 * ((3 * n - 1 : Nat) : Int)) ∈ times := by
    rw [htimes, mem_ris_get_dump_times]
    exact ⟨3 * n - 1, by omega, rfl⟩
  have hlast_gt : dt < midnight + 480 * ((3 * n - 1 : Nat) : Int) := by
    rw [hdt]
    omega
  have hex : ∃ u ∈ times, dt < u := ⟨_, hlast_mem, hlast_gt⟩
  have hlt : bisect times dt < times.length := by
    have hle := bisect_le_length times dt
    rcases Nat.lt_or_ge (bisect times dt) times.length with h | h
    · exact h
    · exfalso
      have heq : bisect times dt = times.length := by omega
      rcases hex with ⟨u, hu, hdu⟩
      have := (bisect_eq_length_iff times dt).mp heq u hu
      omega
  rcases bisect_get_gt times dt hlt with ⟨t, hget, hxt⟩
  refine ⟨t, ?_, ?_, hxt, ?_⟩
  · rw [ris_get_last_dump_datetime, ← htimes, hdtv, hget]
  · exact List.get?_mem hget
  · exact bisect_get_min times dt (pairwise_le_ris_get_dump_times midnight n) t hget

/-! ## Lemmas about `lists_equal` -/

theorem lists_equal_iff (a b : List Int) : lists_equal a b = true ↔ a = b := by
  induction a generalizing b with
  | nil =>
    cases b with
    | nil => simp [lists_equal]
    | cons y ys => simp [lists_equal]
  | cons x xs ih =>
    cases b with
    | nil => simp [lists_equal]
    | cons y ys =>
      have h : lists_equal (x :: xs) (y :: ys) = ((x == y) && lists_equal xs ys) := by
        simp only [lists_equal, List.length_cons, List.zip_cons_cons, List.all_cons]
        by_cases hl : xs.length = ys.length
        · simp [hl]
        · simp [hl]
      rw [h]
      simp only [Bool.and_eq_true, beq_iff_eq, List.cons.injEq]
      rw [ih]

/-! ## Lemmas about the Python-dict model -/

theorem dict_get_nil (j : List Char) : dict_get [] j = none := rfl

theorem dict_get_cons (p : List Char × List Int) (rest : List (List Char × List Int))
    (j : List Char) :
    dict_get (p :: rest) j = if p.1 = j then some p.2 else dict_get rest j := by
  by_cases h : p.1 = j
  · have hb : (p.1 == j) = true := beq_iff_eq.mpr h
    simp [dict_get, List.find?, hb, h]
  · have hb : (p.1 == j) = false := beq_eq_false_iff_ne.mpr h
    simp [dict_get, List.find?, hb, h]

theorem dict_set_nil (k : List Char) (v : List Int) : dict_set [] k v = [(k, v)] := rfl

theorem dict_set_cons (p : List Char × List Int) (rest : List (List Char × List Int))
    (k : List Char) (v : List Int) :
    dict_set (p :: rest) k v =
      if p.1 = k then (k, v) :: rest else p :: dict_set rest k v := by
  by_cases h : p.1 = k
  · have hb : (p.1 == k) = true := beq_iff_eq.mpr h
    simp [dict_set, hb, h]
  · have hb : (p.1 == k) = false := beq_eq_false_iff_ne.mpr h
    simp [dict_set, hb, h]

theorem filter_key_ne_cons (sid : List Char) (p : List Char × List Int)
    (rest : List (List Char × List Int)) :
    (p :: rest).filter (fun q => !(q.1 == sid)) =
      if p.1 = sid then rest.filter (fun q => !(q.1 == sid))
      else p :: rest.filter (fun q => !(q.1 == sid)) := by
  by_cases h : p.1 = sid
  · have hb : (p.1 == sid) = true := beq_iff_eq.mpr h
    simp [List.filter_cons, hb, h]
  · have hb : (p.1 == sid) = false := beq_eq_false_iff_ne.mpr h
    simp [List.filter_cons, hb, h]

theorem filter_state_ne_cons (sid : List Char) (s : BGPState) (rest : List BGPState) :
    (s :: rest).filter (fun r => !(r.source_id == sid)) =
      if s.source_id = sid then rest.filter (fun r => !(r.source_id == sid))
      else s :: rest.filter (fun r => !(r.source_id == sid)) := by
  by_cases h : s.source_id = sid
  · have hb : (s.source_id == sid) = true := beq_iff_eq.mpr h
    simp [List.filter_cons, hb, h]
  · have hb : (s.source_id == sid) = false := beq_eq_false_iff_ne.mpr h
    simp [List.filter_cons, hb, h]

theorem dict_get_dict_set (d : List (List Char × List Int)) (k j : List Char) (v : List Int) :
    dict_get (dict_set d k v) j = if j = k then some v else dict_get d j := by
  induction d with
  | nil =>
    rw [dict_set_nil, dict_get_cons, dict_get_nil]
    by_cases h : j = k
    · rw [if_pos h.symm, if_pos h]
    · rw [if_neg (fun hh => h hh.symm), if_neg h]
  | cons p rest ih =>
    rw [dict_set_cons]
    by_cases hpk : p.1 = k
    · rw [if_pos hpk, dict_get_cons, dict_get_cons]
      by_cases hj : j = k
      · rw [if_pos hj.symm, if_pos hj]
      · rw [if_neg (fun hh => hj hh.symm), if_neg hj, if_neg (fun hh => hj (hpk ▸ hh).symm)]
    · rw [if_neg hpk, dict_get_cons, dict_get_cons, ih]
      by_cases hpj : p.1 = j
      · rw [if_pos hpj, if_pos hpj, if_neg (fun hh => hpk (hpj.symm ▸ hh : p.1 = k))]
      · rw [if_neg hpj, if_neg hpj]

theorem mem_dict_set (d : List (List Char × List Int)) (k : List Char) (v : List Int)
    (q : List Char × List Int) (hq : q ∈ dict_set d k v) : q = (k, v) ∨ q ∈ d := by
  induction d with
  | nil => simpa [dict_set] using hq
  | cons p rest ih =>
    simp only [dict_set] at hq
    by_cases hpk : p.1 = k
    · simp only [beq_iff_eq, hpk, if_true, List.mem_cons] at hq
      rcases hq with rfl | hq
      · exact Or.inl rfl
      · exact Or.inr (List.mem_cons_of_mem _ hq)
    · simp only [beq_iff_eq, hpk, if_false, List.mem_cons] at hq
      rcases hq with rfl | hq
      · exact Or.inr (List.mem_cons_self _ _)
      · rcases ih hq with h | h
        · exact Or.inl h
        · exact Or.inr (List.mem_cons_of_mem _ h)

theorem mem_foldl_dict_set (l : List BGPState) (d : List (List Char × List Int))
    (q : List Char × List Int)
    (hq : q ∈ l.foldl (fun d s => dict_set d s.source_id s.path) d) :
    q ∈ d ∨ ∃ r ∈ l, r.source_id = q.1 := by
  induction l generalizing d with
  | nil => exact Or.inl hq
  | cons s rest ih =>
    simp only [List.foldl_cons] at hq
    rcases ih _ hq with h | h
    · rcases mem_dict_set _ _ _ _ h with rfl | h
      · exact Or.inr ⟨s, List.mem_cons_self _ _, rfl⟩
      · exact Or.inl h
    · rcases h with ⟨r, hr, hrq⟩
      exact Or.inr ⟨r, List.mem_cons_of_mem _ hr, hrq⟩

theorem key_of_mem_build_paths (l : List BGPState) (q : List Char × List Int)
    (hq : q ∈ build_paths l) : ∃ r ∈ l, r.source_id = q.1 := by
  rcases mem_foldl_dict_set l [] q hq with h | h
  · simp at h
  · exact h

theorem dict_get_dict_set_ne (d : List (List Char × List Int)) (k j : List Char)
    (v : List Int) (h : j ≠ k) : dict_get (dict_set d k v) j = dict_get d j := by
  rw [dict_get_dict_set, if_neg h]

theorem dict_get_foldl_none (l : List BGPState) (d : List (List Char × List Int))
    (sid : List Char) (hd : dict_get d sid = none) (hl : ∀ r ∈ l, r.source_id ≠ sid) :
    dict_get (l.foldl (fun d s => dict_set d s.source_id s.path) d) sid = none := by
  induction l generalizing d with
  | nil => exact hd
  | cons s rest ih =>
    simp only [List.foldl_cons]
    refine ih _ ?_ (fun r hr => hl r (List.mem_cons_of_mem _ hr))
    rw [dict_get_dict_set_ne _ _ _ _ (fun h => hl s (List.mem_cons_self _ _) h.symm)]
    exact hd

theorem dict_get_build_paths_none (l : List BGPState) (sid : List Char)
    (hl : ∀ r ∈ l, r.source_id ≠ sid) : dict_get (build_paths l) sid = none := by
  exact dict_get_foldl_none l [] sid rfl hl

theorem dict_set_filter_ne (d : List (List Char × List Int)) (k sid : List Char)
    (v : List Int) (h : k ≠ sid) :
    (dict_set d k v).filter (fun p => !(p.1 == sid)) =
      dict_set (d.filter (fun p => !(p.1 == sid))) k v := by
  induction d with
  | nil =>
    rw [dict_set_nil, filter_key_ne_cons, if_neg h, List.filter_nil, dict_set_nil]
  | cons p rest ih =>
    rw [dict_set_cons]
    by_cases hpk : p.1 = k
    · have hps : ¬ p.1 = sid := fun hh => h (hpk ▸ hh)
      rw [if_pos hpk, filter_key_ne_cons, if_neg h, filter_key_ne_cons, if_neg hps,
        dict_set_cons, if_pos hpk]
    · rw [if_neg hpk]
      by_cases hps : p.1 = sid
      · rw [filter_key_ne_cons, if_pos hps, filter_key_ne_cons, if_pos hps, ih]
      · rw [filter_key_ne_cons, if_neg hps, filter_key_ne_cons, if_neg hps, ih,
          dict_set_cons, if_neg hpk]

theorem dict_set_filter_eq (d : List (List Char × List Int)) (sid : List Char)
    (v : List Int) :
    (dict_set d sid v).filter (fun p => !(p.1 == sid)) =
      d.filter (fun p => !(p.1 == sid)) := by
  induction d with
  | nil =>
    rw [dict_set_nil, filter_key_ne_cons, if_pos rfl, List.filter_nil]
  | cons p rest ih =>
    rw [dict_set_cons]
    by_cases hps : p.1 = sid
    · rw [if_pos hps, filter_key_ne_cons, if_pos rfl, filter_key_ne_cons, if_pos hps]
    · rw [if_neg hps, filter_key_ne_cons, if_neg hps, filter_key_ne_cons, if_neg hps, ih]

theorem foldl_dict_set_filter (l : List BGPState) (sid : List Char)
    (d : List (List Char × List Int)) :
    (l.filter (fun r => !(r.source_id == sid))).foldl
        (fun d s => dict_set d s.source_id s.path) (d.filter (fun p => !(p.1 == sid))) =
      (l.foldl (fun d s => dict_set d s.source_id s.path) d).filter
        (fun p => !(p.1 == sid)) := by
  induction l generalizing d with
  | nil => simp
  | cons s rest ih =>
    by_cases hs : s.source_id = sid
    · have hset : (dict_set d s.source_id s.path).filter (fun p => !(p.1 == sid)) =
          d.filter (fun p => !(p.1 == sid)) := by
        rw [hs]
        exact dict_set_filter_eq d sid s.path
      rw [filter_state_ne_cons, if_pos hs, List.foldl_cons, ← hset, ih]
    · rw [filter_state_ne_cons, if_neg hs, List.foldl_cons, List.foldl_cons,
        ← dict_set_filter_ne d s.source_id sid s.path hs, ih]

theorem build_paths_filter (l : List BGPState) (sid : List Char) :
    build_paths (l.filter (fun r => !(r.source_id == sid))) =
      (build_paths l).filter (fun p => !(p.1 == sid)) := by
  have h := foldl_dict_set_filter l sid []
  simpa [build_paths] using h

theorem dict_get_filter_ne (d : List (List Char × List Int)) (sid j : List Char)
    (h : j ≠ sid) :
    dict_get (d.filter (fun p => !(p.1 == sid))) j = dict_get d j := by
  induction d with
  | nil => rfl
  | cons p rest ih =>
    rw [filter_key_ne_cons]
    by_cases hps : p.1 = sid
    · rw [if_pos hps, ih, dict_get_cons, if_neg (fun hh : p.1 = j => h (hh ▸ hps))]
    · rw [if_neg hps, dict_get_cons, dict_get_cons, ih]

theorem filterMap_filter_of_none {α β : Type} (l : List α) (q : α → Bool) (f : α → Option β)
    (h : ∀ x ∈ l, q x = false → f x = none) :
    (l.filter q).filterMap f = l.filterMap f := by
  induction l with
  | nil => rfl
  | cons a rest ih =>
    have hrest := ih (fun x hx hq => h x (List.mem_cons_of_mem _ hx) hq)
    by_cases ha : q a = true
    · rw [List.filter_cons_of_pos ha, List.filterMap_cons, List.filterMap_cons, hrest]
    · have hfa : f a = none := h a (List.mem_cons_self _ _) (by simpa using ha)
      rw [List.filter_cons_of_neg (by simpa using ha), List.filterMap_cons, hfa, hrest]

theorem filterMap_congr_mem {α β : Type} (l : List α) (f g : α → Option β)
    (h : ∀ x ∈ l, f x = g x) : l.filterMap f = l.filterMap g := by
  induction l with
  | nil => rfl
  | cons a rest ih =>
    rw [List.filterMap_cons, List.filterMap_cons, h a (List.mem_cons_self _ _),
      ih (fun x hx => h x (List.mem_cons_of_mem _ hx))]

/-! ## A host-bits lemma for the strict network check -/

theorem mod_eq_zero_of_and_mask_self (w a p : Nat) (hp : p ≤ w)
    (heq : a &&& (2 ^ w - 2 ^ (w - p)) = a) : a % 2 ^ (w - p) = 0 := by
  have hm : 2 ^ w - 2 ^ (w - p) = 2 ^ (w - p) * (2 ^ p - 1) := by
    rw [mul_comm, Nat.sub_mul, one_mul, ← pow_add]
    congr 2
    omega
  apply Nat.eq_of_testBit_eq
  intro i
  simp only [Nat.testBit_mod_two_pow, Nat.zero_testBit]
  by_cases hik : i < w - p
  · simp only [hik, decide_True, Bool.true_and]
    by_cases hbit : a.testBit i = true
    · exfalso
      have hcong := congrArg (fun x => x.testBit i) heq
      simp only [Nat.testBit_and, hbit, Bool.true_and] at hcong
      rw [hm, Nat.testBit_mul_pow_two] at hcong
      have : ¬ (i ≥ w - p) := by omega
      simp [this] at hcong
    · simpa using hbit
  · simp [hik]

/-! ## Evaluation lemmas for `__response` -/

theorem ripestat_response_none {α : Type} (res : Response α) (h : res.status_code ≠ 200) :
    ripestat_response res = none := by
  simp [ripestat_response, VALID_RESP_CODE, h]

theorem ripestat_response_200 {α : Type} (res : Response α) (h : res.status_code = 200) :
    ripestat_response res = some res.body := by
  simp [ripestat_response, VALID_RESP_CODE, h]

/-! ## Claim theorems -/

/-- C1: the claim states that when the HTTP query for either timepoint
returns a non-200 status (so `ris_get_bgp_state` yields the no-data
result), `ris_compare_aspaths` still completes without raising, with
that snapshot contributing no entries.  The code does not do this: the
no-data result is `None`, and `ris_compare_aspaths` subscripts it
(`then['data']`), raising a `TypeError`.  This theorem evaluates the
code at the failing input: a transport answering non-200 makes
`ris_get_bgp_state` return `none` and makes the comparison raise,
whichever side the failing snapshot is on. -/
theorem C1_non200_none_then_typeerror (fetch : List Char → Response BGPResponse)
    (resource ts : List Char) (h : ∀ u, (fetch u).status_code ≠ 200)
    (other : Option BGPResponse) :
    ris_get_bgp_state fetch resource ts = none ∧
    ris_compare_aspaths (ris_get_bgp_state fetch resource ts) other =
      Except.error PyErr.typeError ∧
    ris_compare_aspaths other (ris_get_bgp_state fetch resource ts) =
      Except.error PyErr.typeError := by
  have hnone : ris_get_bgp_state fetch resource ts = none := by
    rw [ris_get_bgp_state, RIPEstat_get]
    exact ripestat_response_none _ (h _)
  refine ⟨hnone, ?_, ?_⟩
  · rw [hnone]
    rfl
  · rw [hnone]
    cases other <;> rfl

theorem C1_non200_none_then_typeerror_w :
    (∀ u : List Char,
      ((fun _ : List Char => ({ status_code := 500, body := ⟨[]⟩ } : Response BGPResponse)) u).status_code ≠ 200) ∧
    ris_get_bgp_state (fun _ => { status_code := 500, body := ⟨[]⟩ })
      ("193.0.14.0/24".toList) ("1970-01-01T00:00".toList) = none ∧
    ris_compare_aspaths
      (ris_get_bgp_state (fun _ => { status_code := 500, body := ⟨[]⟩ })
        ("193.0.14.0/24".toList) ("1970-01-01T00:00".toList))
      (some ⟨[⟨['1'], [100, 200]⟩]⟩) = Except.error PyErr.typeError := by
  have hf : ∀ u : List Char,
      ((fun _ : List Char => ({ status_code := 500, body := ⟨[]⟩ } : Response BGPResponse)) u).status_code ≠ 200 := by
    intro u
    show (500 : Nat) ≠ 200
    decide
  exact ⟨hf,
    (C1_non200_none_then_typeerror (fun _ => { status_code := 500, body := ⟨[]⟩ })
      ("193.0.14.0/24".toList) ("1970-01-01T00:00".toList) hf
      (some ⟨[⟨['1'], [100, 200]⟩]⟩)).1,
    (C1_non200_none_then_typeerror (fun _ => { status_code := 500, body := ⟨[]⟩ })
      ("193.0.14.0/24".toList) ("1970-01-01T00:00".toList) hf
      (some ⟨[⟨['1'], [100, 200]⟩]⟩)).2.1⟩

/-- C2: for every positive lookback count `n` and current local time
inside today (`midnight ≤ now < midnight + 24h`), the candidate list
has exactly `24/8*n = 3*n` entries, entry `i` is midnight plus `i`
8-hour intervals (so the list is chronologically sorted), and
`ris_get_last_dump_datetime` returns the earliest candidate strictly
after `target_dt = now - n*8 hours`. -/
theorem C2_then_is_earliest_after_target (midnight nowT : Int) (n : Nat) (hn : 0 < n)
    (hlo : midnight ≤ nowT) (hhi : nowT < midnight + 1440) :
    (ris_get_dump_times midnight n).length = 3 * n ∧
    (∀ i : Nat, i < 3 * n →
      (ris_get_dump_times midnight n).get? i = some (midnight + 480 * i)) ∧
    (ris_get_dump_times midnight n).Pairwise (· < ·) ∧
    ∃ t, ris_get_last_dump_datetime midnight nowT n = some t ∧
      t ∈ ris_get_dump_times midnight n ∧
      nowT - 480 * n < t ∧
      ∀ u ∈ ris_get_dump_times midnight n, nowT - 480 * n < u → t ≤ u :=
  ⟨length_ris_get_dump_times midnight n,
    fun i hi => get?_ris_get_dump_times midnight n i hi,
    pairwise_lt_ris_get_dump_times midnight n,
    last_dump_spec midnight nowT n hn hlo hhi⟩

theorem C2_then_is_earliest_after_target_w :
    (0 : Nat) < 1 ∧ (0 : Int) ≤ 1000 ∧ (1000 : Int) < 0 + 1440 ∧
    (∃ t, ris_get_last_dump_datetime 0 1000 1 = some t ∧
      t ∈ ris_get_dump_times 0 1 ∧
      (1000 : Int) - 480 * (1 : Nat) < t ∧
      ∀ u ∈ ris_get_dump_times 0 1, (1000 : Int) - 480 * (1 : Nat) < u → t ≤ u) :=
  ⟨by decide, by decide, by decide,
    (C2_then_is_earliest_after_target 0 1000 1 (by decide) (by decide) (by decide)).2.2.2⟩

/-- C3 counterexample: the claim asserts that for some sufficiently
large lookback count (one whose candidate list fails to cover
`target_dt`) the lookup raises an index error.  No positive count has
that property: for every `n ≥ 1` and every current time inside today,
the lookup succeeds, because the list's last entry
(`midnight + (24n-8)h`) always exceeds `target_dt = now - 8n h`. -/
theorem C3_no_large_n_fails :
    ¬ ∃ n : Nat, 1 ≤ n ∧ ∃ midnight nowT : Int,
      midnight ≤ nowT ∧ nowT < midnight + 1440 ∧
      ris_get_last_dump_datetime midnight nowT n = none := by
  rintro ⟨n, hn, midnight, nowT, hlo, hhi, hnone⟩
  rcases last_dump_spec midnight nowT n hn hlo hhi with ⟨t, ht, -⟩
  rw [hnone] at ht
  exact Option.noConfusion ht

/-- C3 amended: the out-of-range failure of the timestamp lookup does
not occur for large lookback counts; it occurs exactly for a lookback
count of zero (empty candidate list).  For every `n ≥ 1` and current
time inside today the lookup returns a timestamp. -/
theorem C3_lookup_fails_only_at_zero (midnight nowT : Int) (n : Nat)
    (hlo : midnight ≤ nowT) (hhi : nowT < midnight + 1440) :
    ris_get_last_dump_datetime midnight nowT 0 = none ∧
    (1 ≤ n → (ris_get_last_dump_datetime midnight nowT n).isSome = true) := by
  refine ⟨rfl, fun hn => ?_⟩
  rcases last_dump_spec midnight nowT n hn hlo hhi with ⟨t, ht, -⟩
  rw [ht]
  rfl

theorem C3_lookup_fails_only_at_zero_w :
    (0 : Int) ≤ 1000 ∧ (1000 : Int) < 0 + 1440 ∧ (1 : Nat) ≤ 5 ∧
    (ris_get_last_dump_datetime 0 1000 5).isSome = true :=
  ⟨by decide, by decide, by decide,
    (C3_lookup_fails_only_at_zero 0 1000 5 (by decide) (by decide)).2 (by decide)⟩

/-- C4: `lists_equal` returns `true` exactly when the two AS-path
sequences are element-wise equal in order; in particular sequences of
different lengths always compare unequal. -/
theorem C4_lists_equal_iff_elementwise (a b : List Int) :
    (lists_equal a b = true ↔ a = b) ∧
    (a.length ≠ b.length → lists_equal a b = false) := by
  refine ⟨lists_equal_iff a b, fun h => ?_⟩
  rw [lists_equal, if_pos h]

theorem C4_lists_equal_iff_elementwise_w :
    ([100, 200] : List Int).length ≠ ([100] : List Int).length ∧
    lists_equal [100, 200] [100] = false :=
  ⟨by decide, (C4_lists_equal_iff_elementwise [100, 200] [100]).2 (by decide)⟩

/-- C7: `RIPEstat.get` yields the parsed JSON body exactly when the
response status is 200 (the single code in `VALID_RESP_CODE`), and
`none` for every other status, never raising in either case (the
return type is a plain `Option`). -/
theorem C7_get_json_iff_200 {α : Type} (fetch : List Char → Response α)
    (baseurl datacall : List Char) (params : List (List Char × List Char)) :
    RIPEstat_get fetch baseurl datacall params =
      (if (fetch (ripestat_url baseurl datacall
            (ripestat_querystring ("get".toList) params))).status_code = 200
        then some (fetch (ripestat_url baseurl datacall
            (ripestat_querystring ("get".toList) params))).body
        else none) := by
  rw [RIPEstat_get]
  by_cases h : (fetch (ripestat_url baseurl datacall
      (ripestat_querystring ("get".toList) params))).status_code = 200
  · rw [ripestat_response_200 _ h, if_pos h]
  · rw [ripestat_response_none _ h, if_neg h]

/-- C10: with a lookback count of zero, the generated candidate list is
empty (`24/8 * 0 = 0` points) and the timestamp lookup indexes the
empty list, raising an `IndexError` (`none`); nothing checks `n = 0`
before the lookup. -/
theorem C10_zero_lookback_index_error (midnight nowT : Int) :
    ris_get_dump_times midnight 0 = [] ∧
    ris_get_last_dump_datetime midnight nowT 0 = none :=
  ⟨rfl, rfl⟩

/-- C5: `validate_target` succeeds exactly when the string contains a
`/` and parses as a valid network of the family selected by the
presence of `:` (IPv6 when present, IPv4 otherwise); in particular the
spec's four examples behave as stated. -/
theorem C5_validate_target_spec (t : String) :
    (validate_target t = true ↔
      (t.toList.contains '/' = true ∧
        ((t.toList.contains ':' = true ∧ (IPv6Network t.toList).isSome = true) ∨
          (t.toList.contains ':' = false ∧ (IPv4Network t.toList).isSome = true)))) ∧
    validate_target "193.0.14.0/24" = true ∧
    validate_target "2001:db8::/32" = true ∧
    validate_target "193.0.14.0" = false ∧
    validate_target "not-an-ip/24" = false := by
  refine ⟨?_, by decide, by decide, by decide, by decide⟩
  rw [validate_target, validate_targetL]
  by_cases h1 : t.toList.contains '/' = true
  · rw [if_neg (not_not_intro h1)]
    have m1 : '/' ∈ t.data := by simpa [String.toList] using h1
    by_cases h2 : t.toList.contains ':' = true
    · rw [if_pos h2]
      have m2 : ':' ∈ t.data := by simpa [String.toList] using h2
      simp [m1, m2]
    · rw [if_neg h2]
      have m2 : ':' ∉ t.data := by simpa [String.toList] using h2
      simp [m1, m2]
  · rw [if_pos h1]
    have m1 : '/' ∉ t.data := by simpa [String.toList] using h1
    simp [m1]

/-- C6: if target validation fails, the program prints the help text to
standard error and exits with code 1 having made no network call; if
validation succeeds and the run completes (reaches `sys.exit`), the
exit code is 0 — including the quiet case where nothing is printed. -/
theorem C6_exit_codes (n : Nat) (target : String) (midnight nowT : Int)
    (fetch : List Char → Response BGPResponse) :
    (validate_target target = false →
      main_run n target midnight nowT fetch =
        Except.ok ⟨1, true, 0, []⟩) ∧
    (validate_target target = true →
      ∀ r : RunResult, main_run n target midnight nowT fetch = Except.ok r →
        r.exitCode = 0) := by
  constructor
  · intro h
    have hv : ¬ (validate_target target = true) := by simp [h]
    rw [main_run, if_pos hv]
  · intro hv r hr
    rw [main_run, if_neg (not_not_intro hv)] at hr
    revert hr
    cases ris_get_last_dump_datetime midnight nowT n with
    | none =>
      intro hr
      simp at hr
    | some thenDt =>
      dsimp only
      cases ris_compare_aspaths
          (ris_get_bgp_state fetch target.toList (ris_format_timestamp thenDt))
          (ris_get_bgp_state fetch target.toList (ris_format_timestamp nowT)) with
      | error e =>
        intro hr
        simp at hr
      | ok out =>
        intro hr
        injection hr with h2
        rw [← h2]

theorem C6_exit_codes_w :
    validate_target "foo" = false ∧
    main_run 3 "foo" 0 1000 (fun _ => { status_code := 200, body := ⟨[]⟩ }) =
      Except.ok ⟨1, true, 0, []⟩ ∧
    validate_target "193.0.14.0/24" = true ∧
    main_run 3 "193.0.14.0/24" 0 1000 (fun _ => { status_code := 200, body := ⟨[]⟩ }) =
      Except.ok ⟨0, false, 2, []⟩ ∧
    (⟨0, false, 2, []⟩ : RunResult).exitCode = 0 := by
  refine ⟨by decide, ?_, by decide, by decide, ?_⟩
  · exact (C6_exit_codes 3 "foo" 0 1000 (fun _ => { status_code := 200, body := ⟨[]⟩ })).1
      (by decide)
  · exact (C6_exit_codes 3 "193.0.14.0/24" 0 1000
      (fun _ => { status_code := 200, body := ⟨[]⟩ })).2 (by decide)
      ⟨0, false, 2, []⟩ (by decide)

/-- C8: a source id present in only one of the two snapshots produces
no output line: deleting every record with that id from the snapshot
where it is the lone occupant leaves the comparison output unchanged
(absence is never reported as a change). -/
theorem C8_lone_source_contributes_nothing (t nw : BGPResponse) (sid : List Char) :
    ((∀ r ∈ nw.bgp_state, r.source_id ≠ sid) →
      ris_compare_aspaths
          (some ⟨t.bgp_state.filter (fun r => !(r.source_id == sid))⟩) (some nw) =
        ris_compare_aspaths (some t) (some nw)) ∧
    ((∀ r ∈ t.bgp_state, r.source_id ≠ sid) →
      ris_compare_aspaths (some t)
          (some ⟨nw.bgp_state.filter (fun r => !(r.source_id == sid))⟩) =
        ris_compare_aspaths (some t) (some nw)) := by
  constructor
  · intro h
    simp only [ris_compare_aspaths]
    congr 1
    rw [build_paths_filter]
    apply filterMap_filter_of_none
    intro p hp hq
    have hps : p.1 = sid := by simpa using hq
    rw [hps, dict_get_build_paths_none nw.bgp_state sid h]
  · intro h
    simp only [ris_compare_aspaths]
    congr 1
    simp only [build_paths_filter]
    apply filterMap_congr_mem
    intro p hp
    have hkey : p.1 ≠ sid := by
      rcases key_of_mem_build_paths _ _ hp with ⟨r, hr, hrid⟩
      rw [← hrid]
      exact h r hr
    rw [dict_get_filter_ne _ _ _ hkey]

theorem C8_lone_source_contributes_nothing_w :
    (∀ r ∈ (⟨[⟨['b'], [200]⟩]⟩ : BGPResponse).bgp_state, r.source_id ≠ (['a'] : List Char)) ∧
    ris_compare_aspaths
        (some ⟨(⟨[⟨['a'], [100]⟩]⟩ : BGPResponse).bgp_state.filter
            (fun r => !(r.source_id == (['a'] : List Char)))⟩)
        (some ⟨[⟨['b'], [200]⟩]⟩) =
      ris_compare_aspaths (some ⟨[⟨['a'], [100]⟩]⟩) (some ⟨[⟨['b'], [200]⟩]⟩) := by
  have hh : ∀ r ∈ (⟨[⟨['b'], [200]⟩]⟩ : BGPResponse).bgp_state,
      r.source_id ≠ (['a'] : List Char) := by decide
  exact ⟨hh,
    (C8_lone_source_contributes_nothing ⟨[⟨['a'], [100]⟩]⟩ ⟨[⟨['b'], [200]⟩]⟩ ['a']).1 hh⟩

/-- C9: a CIDR string whose address has host bits set below the mask
fails the strict network-literal check in either address family, so
`validate_target` rejects it — a target must denote the network address
itself, even though the help text directs users to derive it from a
host IP.  First conjunct: IPv4 targets (no `:`, e.g. `193.0.14.129/24`);
second conjunct: IPv6 targets (`:` present, e.g. `2001:db8::1/32`), where
a missing `/` already fails the earlier check. -/
theorem C9_host_bits_rejected (s : String) (a p : Nat) :
    (s.toList.contains ':' = false → s.toList.contains '/' = true →
      ipv4_addr_and_prefixlen s.toList = some (a, p) → p ≤ 32 →
      a % 2 ^ (32 - p) ≠ 0 → validate_target s = false) ∧
    (s.toList.contains ':' = true →
      ipv6_addr_and_prefixlen s.toList = some (a, p) → p ≤ 128 →
      a % 2 ^ (128 - p) ≠ 0 → validate_target s = false) := by
  constructor
  · intro hcol hsl hp hp32 hhost
    have hcol' : ¬ (s.toList.contains ':' = true) := by
      intro hc
      rw [hcol] at hc
      exact Bool.false_ne_true hc
    rw [validate_target, validate_targetL, if_neg (not_not_intro hsl), if_neg hcol']
    have hand : a &&& ipv4_netmask_int p ≠ a := by
      intro heq
      exact hhost (mod_eq_zero_of_and_mask_self 32 a p hp32 heq)
    simp only [IPv4Network, hp]
    rw [if_pos hand]
    rfl
  · intro hcol hp hp128 hhost
    by_cases hsl : s.toList.contains '/' = true
    · rw [validate_target, validate_targetL, if_neg (not_not_intro hsl), if_pos hcol]
      have hand : a &&& ipv6_netmask_int p ≠ a := by
        intro heq
        exact hhost (mod_eq_zero_of_and_mask_self 128 a p hp128 heq)
      simp only [IPv6Network, hp]
      rw [if_pos hand]
      rfl
    · rw [validate_target, validate_targetL, if_pos hsl]

theorem C9_host_bits_rejected_w :
    (("193.0.14.129/24".toList.contains ':') = false ∧
      ("193.0.14.129/24".toList.contains '/') = true ∧
      ipv4_addr_and_prefixlen ("193.0.14.129/24".toList) = some (3238006401, 24) ∧
      (24 : Nat) ≤ 32 ∧
      (3238006401 : Nat) % 2 ^ (32 - 24) ≠ 0 ∧
      validate_target "193.0.14.129/24" = false) ∧
    (("2001:db8::1/32".toList.contains ':') = true ∧
      ipv6_addr_and_prefixlen ("2001:db8::1/32".toList) =
        some (42540766411282592856903984951653826561, 32) ∧
      (32 : Nat) ≤ 128 ∧
      (42540766411282592856903984951653826561 : Nat) % 2 ^ (128 - 32) ≠ 0 ∧
      validate_target "2001:db8::1/32" = false) :=
  ⟨⟨by decide, by decide, by decide, by decide, by decide,
    (C9_host_bits_rejected "193.0.14.129/24" 3238006401 24).1 (by decide) (by decide)
      (by decide) (by decide) (by decide)⟩,
   ⟨by decide, by decide, by decide, by decide,
    (C9_host_bits_rejected "2001:db8::1/32" 42540766411282592856903984951653826561 32).2
      (by decide) (by decide) (by decide) (by decide)⟩⟩


/-! ## Model validation

Concrete evaluations pinning the embedding to the observed behavior of
the program and its dependencies (cpython 3.11 `ipaddress`, `datetime`,
`bisect`, `dateutil.rrule`) on the same inputs. -/

theorem model_check_dump_times : ris_get_dump_times 0 1 = [0, 480, 960] := by decide
theorem model_check_lookup_some : ris_get_last_dump_datetime 0 1000 1 = some 960 := by decide
theorem model_check_lookup_none : ris_get_last_dump_datetime 0 1000 0 = none := by decide
theorem model_check_format_epoch : ris_format_timestamp 0 = "1970-01-01T00:00".toList := by decide
theorem model_check_format_2024 : ris_format_timestamp 28547637 = "2024-04-11T17:57".toList := by decide

theorem model_check_ipv4_parse :
    IPv4Network "193.0.14.0/24".toList = some (3238006272, 24) ∧
    IPv4Network "193.0.14.129/24".toList = none ∧
    IPv4Network "not-an-ip/24".toList = none ∧
    IPv4Network "193.0.14.0".toList = some (3238006272, 32) ∧
    IPv4Network "193.0.014.0/24".toList = none ∧
    IPv4Network "1.2.3.0/255.255.255.0".toList = some (16909056, 24) ∧
    IPv4Network "1.2.3.0/0.0.0.255".toList = some (16909056, 24) ∧
    IPv4Network "1.2.3.4/0.0.0.255".toList = none ∧
    IPv4Network "1.2.3.0/032".toList = some (16909056, 32) ∧
    IPv4Network "1.2.3.0/33".toList = none ∧
    IPv4Network "1.2.3.0/24/24".toList = none ∧
    IPv4Network "256.1.1.0/24".toList = none ∧
    IPv4Network "1.2.3/24".toList = none ∧
    IPv4Network "1.2.3.0/".toList = none ∧
    IPv4Network "/24".toList = none ∧
    IPv4Network "0.0.0.0/0".toList = some (0, 0) ∧
    IPv4Network "1.2.3.0/255.0.255.0".toList = none ∧
    IPv4Network "1.2.3.0/-1".toList = none ∧
    IPv4Network "1.2.3.4/31".toList = some (16909060, 31) ∧
    IPv4Network "01.2.3.0/24".toList = none ∧
    IPv4Network "1.2.3.0000/24".toList = none := by decide

theorem model_check_ipv6_parse :
    IPv6Network "2001:db8::/32".toList = some (42540766411282592856903984951653826560, 32) ∧
    IPv6Network "::/0".toList = some (0, 0) ∧
    IPv6Network "::1/128".toList = some (1, 128) ∧
    IPv6Network "2001:db8::1/32".toList = none ∧
    IPv6Network "2001:db8::/129".toList = none ∧
    IPv6Network "2001:db8::/032".toList = some (42540766411282592856903984951653826560, 32) ∧
    IPv6Network "2001:db8::/ffff:ffff::".toList = none ∧
    IPv6Network "::ffff:1.2.3.4/128".toList = some (281470698652420, 128) ∧
    IPv6Network "1:2:3:4:5:6:7:8/128".toList = some (5192455318486707404433266433261576, 128) ∧
    IPv6Network "1:2:3:4:5:6:7:8:9/128".toList = none ∧
    IPv6Network "::".toList = some (0, 128) ∧
    IPv6Network "2001:0db8::/32".toList = some (42540766411282592856903984951653826560, 32) ∧
    IPv6Network "1::2::3/32".toList = none ∧
    IPv6Network "::2001:db8/128".toList = some (536939960, 128) ∧
    IPv6Network ":2001:db8::/32".toList = none ∧
    IPv6Network "2001:db8:/32".toList = none ∧
    IPv6Network "2001:db8::%eth0/32".toList = some (42540766411282592856903984951653826560, 32) ∧
    IPv6Network "12345::/32".toList = none ∧
    IPv6Network "::ffff:1.2.3.384/128".toList = none := by decide

theorem model_check_ipv6_parse_more :
    IPv6Network "::/::".toList = none ∧
    IPv6Network "1:2:3:4:5:6:1.2.3.4/128".toList = some (5192455318486707404433266449711876, 128) ∧
    IPv6Network "1:2:3:4:5:6:7:1.2.3.4/128".toList = none ∧
    IPv6Network "::1.2.3.4/128".toList = some (16909060, 128) ∧
    IPv6Network "1::3:4:5:6:7:8/16".toList = none ∧
    IPv6Network "fe80::1%1/128".toList = some (338288524927261089654018896841347694593, 128) ∧
    IPv6Network "fe80::1%/128".toList = none ∧
    IPv6Network "fe80::1%a%b/128".toList = none ∧
    IPv4Network "1.2.3.4/255.255.255.255".toList = some (16909060, 32) := by decide

theorem model_check_compare :
    ris_compare_aspaths (some ⟨[⟨['1'], [100, 200, 300]⟩]⟩) (some ⟨[⟨['1'], [100, 250, 300]⟩]⟩) =
      .ok [format_line [100, 200, 300] [100, 250, 300]] ∧
    ris_compare_aspaths (some ⟨[⟨['1'], [100, 200, 300]⟩]⟩) (some ⟨[⟨['1'], [100, 200, 300]⟩]⟩) =
      .ok [] ∧
    ris_compare_aspaths (some ⟨[⟨['1'], [100]⟩]⟩) (some ⟨[⟨['2'], [100]⟩]⟩) = .ok [] ∧
    ris_compare_aspaths none (some ⟨[]⟩) = .error .typeError ∧
    ris_compare_aspaths (some ⟨[]⟩) none = .error .typeError := by decide

theorem model_check_format_line :
    format_line [100, 200] [100, 250] =
      ("                            100 200 -->                             100 250").toList := by
  decide

theorem model_check_main_run :
    main_run 3 "foo" 0 1000 (fun _ => ⟨500, ⟨[]⟩⟩) = .ok ⟨1, true, 0, []⟩ ∧
    main_run 3 "193.0.14.0/24" 0 1000 (fun _ => ⟨500, ⟨[]⟩⟩) = .error .typeError ∧
    main_run 3 "193.0.14.0/24" 0 1000 (fun _ => ⟨200, ⟨[]⟩⟩) = .ok ⟨0, false, 2, []⟩ ∧
    main_run 0 "193.0.14.0/24" 0 1000 (fun _ => ⟨200, ⟨[]⟩⟩) = .error .indexError := by decide

theorem model_check_validate_target :
    validate_target "193.0.14.0/24" = true ∧
    validate_target "2001:db8::/32" = true ∧
    validate_target "193.0.14.0" = false ∧
    validate_target "not-an-ip/24" = false ∧
    validate_target "193.0.14.129/24" = false := by decide

end CompareAspaths
